import Mathlib

/-!
Verification of the pydici consulting-management application's
natural-language specification against a shallow embedding of its code.

Covered source files:
* `billing/utils.py` (`compute_bill`)
* `staffing/views.py` (`pdc_review`, `prod_report`, CSV timesheet exports)
* `people/learn.py` (`consultant_cumulated_experience`, `predict_similar_consultant`)

Conventions of the embedding:
* Python `Decimal` / numeric amounts are modelled as `ℚ`; nullable numeric
  fields as `Option ℚ` (`none` is Python `None`).
* Python truthiness of a nullable number (`if bill.amount:`) is `pyTruthy`:
  `None` and `0` are falsy.
* Fallible operations (Python exceptions) are modelled with `Except`.
* Values fetched by the ORM that are outside the shown code
  (e.g. `bill.expensesTotal()`, query results) are inputs of the
  embedded functions.
-/

namespace Pydici

/-- Python truthiness of a nullable numeric field: `None` and `0` are falsy. -/
def pyTruthy : Option ℚ → Bool
  | none => false
  | some q => q != 0

/-! ### billing/utils.py : `compute_bill` -/

/-- A bill detail line (`BillDetail` row): nullable amount and amount with VAT. -/
structure BillDetail where
  amount : Option ℚ
  amount_with_vat : Option ℚ
  deriving Repr, DecidableEq

/-- A client bill (`ClientBill` row) with the fields `compute_bill` touches.
`expensesTotal` and `expensesTotalWithTaxes` are the values returned by the
model methods of the same names (their code is outside the shown sources, so
they appear as data). -/
structure ClientBill where
  state : String
  amount : Option ℚ
  amount_with_vat : Option ℚ
  vat : ℚ
  billdetail_set : List BillDetail
  expensesTotal : ℚ
  expensesTotalWithTaxes : ℚ
  deriving Repr, DecidableEq

/-- `amount += bill_detail.amount` guarded by `if bill_detail.amount:`. -/
def addIfTruthy (acc : ℚ) (x : Option ℚ) : ℚ :=
  match x with
  | none => acc
  | some q => if q ≠ 0 then acc + q else acc

/-- First phase of `compute_bill` (billing/utils.py lines 58-74): for bills in
state `0_DRAFT` or `0_PROPOSED`, sum the truthy detail amounts, add expenses,
and assign each sum to the bill only when it is nonzero. -/
def compute_bill_draft_phase (bill : ClientBill) : ClientBill :=
  if bill.state = "0_DRAFT" ∨ bill.state = "0_PROPOSED" then
    let amount := bill.billdetail_set.foldl (fun a d => addIfTruthy a d.amount) 0
    let amount_with_vat :=
      bill.billdetail_set.foldl (fun a d => addIfTruthy a d.amount_with_vat) 0
    let amount := amount + bill.expensesTotal
    let amount_with_vat := amount_with_vat + bill.expensesTotalWithTaxes
    let bill1 := if amount ≠ 0 then { bill with amount := some amount } else bill
    if amount_with_vat ≠ 0 then { bill1 with amount_with_vat := some amount_with_vat }
    else bill1
  else bill

/-- Second phase of `compute_bill` (billing/utils.py lines 76-79): when
`amount_with_vat` is falsy and `amount` truthy, set
`amount_with_vat = amount * (1 + vat / 100)`. -/
def compute_bill_vat_phase (bill : ClientBill) : ClientBill :=
  if ¬ pyTruthy bill.amount_with_vat then
    if pyTruthy bill.amount then
      { bill with amount_with_vat := some (bill.amount.getD 0 * (1 + bill.vat / 100)) }
    else bill
  else bill

/-- `compute_bill` (billing/utils.py lines 56-79): the draft-state summation
followed by the automatic VAT computation. -/
def compute_bill (bill : ClientBill) : ClientBill :=
  compute_bill_vat_phase (compute_bill_draft_phase bill)

/-- Sum of the truthy detail amounts, as the loop computes it. -/
def detailAmountSum (bill : ClientBill) : ℚ :=
  bill.billdetail_set.foldl (fun a d => addIfTruthy a d.amount) 0

/-- Sum of the truthy detail amounts with VAT, as the loop computes it. -/
def detailAmountWithVatSum (bill : ClientBill) : ℚ :=
  bill.billdetail_set.foldl (fun a d => addIfTruthy a d.amount_with_vat) 0

end Pydici

namespace Pydici

/-- Sum of detail amounts as the spec words it: null amounts count as 0,
expenses total added. -/
def specDetailAmountSum (bill : ClientBill) : ℚ :=
  (bill.billdetail_set.map (fun d => d.amount.getD 0)).sum + bill.expensesTotal

/-- Sum of detail amounts with VAT as the spec words it, expenses with
taxes added. -/
def specDetailVatSum (bill : ClientBill) : ℚ :=
  (bill.billdetail_set.map (fun d => d.amount_with_vat.getD 0)).sum +
    bill.expensesTotalWithTaxes

/-- A concrete already-sent bill: state `1_SENT`, amount 5, amount with VAT 7,
one detail line of amount 3 (with VAT 4), no expenses. -/
def sentBill : ClientBill :=
  { state := "1_SENT"
    amount := some 5
    amount_with_vat := some 7
    vat := 20
    billdetail_set := [{ amount := some 3, amount_with_vat := some 4 }]
    expensesTotal := 0
    expensesTotalWithTaxes := 0 }

/-! ### staffing/views.py : `pdc_review` (lines 309-317, 342-347, 364-429) -/

/-- A staffing row joined with its mission, as `consultant.staffing_set`
rows are consumed by `pdc_review`: forecast date (month, abstracted to a
number), charge in days, the mission's nature and probability. -/
structure StaffingRow where
  staffing_date : ℕ
  charge : ℚ
  nature : String
  probability : ℚ
  deriving Repr, DecidableEq

/-- A consultant as `pdc_review` sees one: its staffing rows. -/
structure PdcConsultant where
  staffing_set : List StaffingRow
  deriving Repr, DecidableEq

/-- The `current_staffings` queryset of `pdc_review` (lines 368-373): rows of
the month, keeping probability > 0 missions under `balanced`/`full`
projection and only probability = 100 missions otherwise. -/
def current_staffings (projection : String) (c : PdcConsultant) (m : ℕ) :
    List StaffingRow :=
  if projection = "balanced" ∨ projection = "full" then
    c.staffing_set.filter (fun s => decide (s.staffing_date = m ∧ s.probability > 0))
  else
    c.staffing_set.filter (fun s => decide (s.staffing_date = m ∧ s.probability = 100))

/-- One iteration of the nature-bucketing loop of `pdc_review` (lines
379-396): append the charge — raw under the `full` projection, otherwise
weighted by probability / 100 — to the list matching the mission nature. -/
def pdc_bucket_step (projection : String) (acc : List ℚ × List ℚ × List ℚ)
    (s : StaffingRow) : List ℚ × List ℚ × List ℚ :=
  let w := if projection = "full" then s.charge else s.charge * s.probability / 100
  if s.nature = "PROD" then (acc.1 ++ [w], acc.2.1, acc.2.2)
  else if s.nature = "NONPROD" then (acc.1, acc.2.1 ++ [w], acc.2.2)
  else if s.nature = "HOLIDAYS" then (acc.1, acc.2.1, acc.2.2 ++ [w])
  else acc

/-- The nature-bucketing loop of `pdc_review` (lines 379-396): build the
`prod`, `unprod` and `holidays` lists. -/
def pdc_bucket (projection : String) (ss : List StaffingRow) :
    List ℚ × List ℚ × List ℚ :=
  ss.foldl (pdc_bucket_step projection) ([], [], [])

/-- Accumulated monthly totals of `pdc_review` (the `total[month]` dict). -/
structure PdcTotals where
  prod : ℚ
  unprod : ℚ
  holidays : ℚ
  available : ℚ
  total : ℚ
  deriving Repr, DecidableEq

/-- One consultant-month step of the accumulation loop (lines 398-412):
sum the bucket lists, compute availability against the month's working
days `wd`, and add everything to the running totals. -/
def pdc_accumulate (projection : String) (wd : ℚ) (m : ℕ)
    (t : PdcTotals) (c : PdcConsultant) : PdcTotals :=
  let b := pdc_bucket projection (current_staffings projection c m)
  let prod := b.1.sum
  let unprod := b.2.1.sum
  let holidays := b.2.2.sum
  let available := wd - (prod + unprod + holidays)
  { prod := t.prod + prod
    unprod := t.unprod + unprod
    holidays := t.holidays + holidays
    available := t.available + available
    total := t.total + wd }

/-- Monthly totals over all consultants (the loop of lines 364-412 for one
month, restricted to the totals it maintains). -/
def pdc_month_total (projection : String) (wd : ℚ) (cs : List PdcConsultant)
    (m : ℕ) : PdcTotals :=
  cs.foldl (pdc_accumulate projection wd m) ⟨0, 0, 0, 0, 0⟩

/-- The indicator-rate computation of `pdc_review` (lines 420-429) for one
month: `ndays = people_count * working days`; the `holidays` rate divides by
`ndays`, the other three by `ndays` minus the holidays total.  Order of the
list: prod, unprod, holidays, available. -/
def pdc_month_rate (projection : String) (people_count : ℕ) (wd : ℚ)
    (cs : List PdcConsultant) (m : ℕ) : List ℚ :=
  let t := pdc_month_total projection wd cs m
  let ndays := (people_count : ℚ) * wd
  [100 * t.prod / (ndays - t.holidays),
   100 * t.unprod / (ndays - t.holidays),
   100 * t.holidays / ndays,
   100 * t.available / (ndays - t.holidays)]

/-- Weight of a staffing charge as the spec words it: the raw charge under
the `full` projection, otherwise the charge times probability / 100. -/
def staffingWeight (projection : String) (s : StaffingRow) : ℚ :=
  if projection = "full" then s.charge else s.charge * s.probability / 100

/-- Spec-side total for one nature and month: sum, over the consultants, of
the weighted charges of their kept staffing rows of that nature. -/
def specNatureTotal (projection : String) (cs : List PdcConsultant) (m : ℕ)
    (nature : String) : ℚ :=
  (cs.map (fun c =>
    (((current_staffings projection c m).filter
        (fun s => decide (s.nature = nature))).map
      (staffingWeight projection)).sum)).sum

/-- Spec-side availability total: for each consultant, the working days of
the month minus the consultant's prod, unprod and holidays charges. -/
def specAvailableTotal (projection : String) (wd : ℚ) (cs : List PdcConsultant)
    (m : ℕ) : ℚ :=
  (cs.map (fun c =>
    wd - ((((current_staffings projection c m).filter
              (fun s => decide (s.nature = "PROD"))).map (staffingWeight projection)).sum
          + (((current_staffings projection c m).filter
              (fun s => decide (s.nature = "NONPROD"))).map (staffingWeight projection)).sum
          + (((current_staffings projection c m).filter
              (fun s => decide (s.nature = "HOLIDAYS"))).map (staffingWeight projection)).sum))).sum

/-- The `n_month` parameter handling of `pdc_review` (lines 309-317).  The
GET parameter is `none` when absent; `Except.error` models the `ValueError`
of `int()` on a non-integer string, which the code catches, keeping the
default 4; an integer above 12 is clamped to 12. -/
def pdc_n_month (param : Option (Except Unit ℤ)) : ℤ :=
  match param with
  | none => 4
  | some (Except.error _) => 4
  | some (Except.ok k) => if k > 12 then 12 else k

/-- The displayed month list of `pdc_review` (lines 342-347): `n_month`
months from the start month, wrapping the year once when passing December. -/
def pdc_months (start_year start_month : ℤ) (n_month : ℤ) :
    List (ℤ × ℤ) :=
  (List.range n_month.toNat).map (fun (i : ℕ) =>
    if start_month + (i : ℤ) ≤ 12 then (start_year, start_month + (i : ℤ))
    else (start_year + 1, start_month + (i : ℤ) - 12))

/-! ### staffing/views.py : `prod_report` (lines 556-593) -/

/-- Python division of rationals: raises `ZeroDivisionError` (modelled as
`Except.error`) when the divisor is zero. -/
def pyDiv (a b : ℚ) : Except Unit ℚ :=
  if b = 0 then Except.error () else Except.ok (a / b)

/-- Python `int()` applied to a number: truncation toward zero. -/
def pyInt (q : ℚ) : ℤ :=
  if q ≥ 0 then ⌊q⌋ else ⌈q⌉

/-- The production-rate computation of `prod_report` (lines 572-575):
`PROD / (PROD + NONPROD)`, with the `ZeroDivisionError` caught and the
rate set to 0. -/
def prod_rate_calc (prodDays nonprodDays : ℚ) : ℚ :=
  match pyDiv prodDays (prodDays + nonprodDays) with
  | Except.error _ => 0
  | Except.ok v => v

/-- One consultant-month cell of `prod_report`. -/
structure ProdCell where
  daily_rate_obj : ℚ
  prod_rate_obj : ℚ
  forecast : ℤ
  prod_rate : ℚ
  daily_rate : ℚ
  status : String
  deriving Repr, DecidableEq

/-- One consultant-month computation of `prod_report` (lines 564-593).
`dro`/`pro` are the consultant's daily-rate and production-rate objectives
(`none` when `get_rate_objective` returns no objective, making `.rate` raise
`AttributeError`, the caught branch that zeroes all three); `month_days` the
month's working days up to today; `holidaysDays`, `prodDays`, `nonprodDays`
the consultant's timesheet day counts per mission nature; `turnover` the
(already `int()`-truncated) turnover. -/
def prod_report_cell (dro pro : Option ℚ) (month_days holidaysDays prodDays
    nonprodDays : ℚ) (turnover : ℤ) : ProdCell :=
  let objs : Except Unit (ℚ × ℚ × ℤ) :=
    match dro, pro with
    | some d, some p =>
        Except.ok (d, p / 100, pyInt (d * (p / 100) * (month_days - holidaysDays)))
    | _, _ => Except.error ()
  let v := match objs with
    | Except.ok v => v
    | Except.error _ => (0, 0, 0)
  let daily_rate_obj := v.1
  let prod_rate_obj := v.2.1
  let forecast := v.2.2
  let prod_rate := prod_rate_calc prodDays nonprodDays
  let daily_rate := if prodDays > 0 then (turnover : ℚ) / prodDays else 0
  let status :=
    if turnover ≥ forecast then
      if prod_rate < prod_rate_obj then "ok_but_prod_date"
      else if daily_rate < daily_rate_obj then "ok_but_daily_rate"
      else "ok"
    else
      if prod_rate ≥ prod_rate_obj then "ko_but_prod_date"
      else if daily_rate ≥ daily_rate_obj then "ko_but_daily_rate"
      else "ko"
  { daily_rate_obj := daily_rate_obj
    prod_rate_obj := prod_rate_obj
    forecast := forecast
    prod_rate := prod_rate
    daily_rate := daily_rate
    status := status }

/-- The six `prod_report` status names (the keys of `all_status`). -/
def prodStatusNames : List String :=
  ["ok", "ko", "ok_but_daily_rate", "ok_but_prod_date",
   "ko_but_daily_rate", "ko_but_prod_date"]

/-! ### staffing/views.py : CSV timesheet exports (lines 793-826, 1135-1151,
1156 onwards) -/

/-- The UTF-8 byte-order mark `codecs.BOM_UTF8`, as bytes. -/
def bomUtf8 : List ℕ := [0xEF, 0xBB, 0xBF]

/-- Bytes of a string (UTF-8). -/
def strBytes (s : String) : List ℕ :=
  s.toUTF8.toList.map (fun b => b.toNat)

/-- A `csv.writer`: the only state the claims need is its field delimiter. -/
structure CsvWriter where
  delimiter : Char
  deriving Repr, DecidableEq

/-- Rendering of one row by `csv.writer.writerow`: fields joined by the
writer's delimiter, terminated by the writer's default `\r\n`. -/
def csvRenderRow (w : CsvWriter) (row : List String) : String :=
  String.intercalate (String.singleton w.delimiter) row ++ "\r\n"

/-- An HTTP response carrying a body of bytes. -/
structure HttpResponse where
  content_type : String
  content_disposition : String
  body : List ℕ
  deriving Repr, DecidableEq

/-- Shared construction of the three CSV timesheet responses: a `text/csv`
attachment response whose body starts with `codecs.BOM_UTF8`, followed by
the rows rendered by a `csv.writer` with delimiter `;`. -/
def csvTimesheetResponse (rows : List (List String)) : HttpResponse × CsvWriter :=
  let response : HttpResponse :=
    { content_type := "text/csv"
      content_disposition := "attachment; filename=timesheet.csv"
      body := bomUtf8 }
  let writer : CsvWriter := { delimiter := ';' }
  let response :=
    { response with
        body := response.body ++
          (rows.map (csvRenderRow writer)).foldl (fun b r => b ++ strBytes r) [] }
  (response, writer)

/-- `consultant_csv_timesheet` (lines 793-826).  The rows (header, days and
per-mission lines, built from ORM data) are inputs. -/
def consultant_csv_timesheet (rows : List (List String)) :
    HttpResponse × CsvWriter :=
  csvTimesheetResponse rows

/-- `all_csv_timesheet` (lines 1135-1151).  The rows (month header and
charges) are inputs. -/
def all_csv_timesheet (rows : List (List String)) :
    HttpResponse × CsvWriter :=
  csvTimesheetResponse rows

/-- `detailed_csv_timesheet` (lines 1156 onwards).  The rows (month, header
and per-mission-consultant lines) are inputs. -/
def detailed_csv_timesheet (rows : List (List String)) :
    HttpResponse × CsvWriter :=
  csvTimesheetResponse rows

/-! ### people/learn.py : `consultant_cumulated_experience` (lines 37-63)
and `predict_similar_consultant` (lines 76-79) -/

/-- A lead as `consultant_cumulated_experience` reads one: the id of its
responsible (if any), the responsible ids of its missions (possibly `none`,
as `values_list("responsible")` yields), and its tag names. -/
structure LeadInfo where
  responsible_id : Option ℕ
  mission_responsible_ids : List (Option ℕ)
  tags : List String
  deriving Repr, DecidableEq

/-- One aggregated timesheet row of the learn query: a production lead, the
consultant's total charge on it, and the consultant's last working date on
it (a day number). -/
structure LeadCharge where
  lead : LeadInfo
  charge : ℚ
  max_working_date : ℤ
  deriving Repr, DecidableEq

/-- A consultant as `consultant_cumulated_experience` reads one. -/
structure ConsultantInfo where
  id : ℕ
  profil_level : ℚ
  company_name : String
  manager_trigramme : String
  deriving Repr, DecidableEq

/-- The decay weight of learn.py lines 44-47: `(today - end_date).days / 30`
(true division), raised to 1 when below 1, then passed to `sqrt`.  The
square root (a transcendental float operation) is an explicit parameter
`sqrtFn` of the embedding; every theorem holds for an arbitrary `sqrtFn`. -/
def lead_weight (sqrtFn : ℚ → ℚ) (today end_date : ℤ) : ℚ :=
  let w : ℚ := ((today - end_date : ℤ) : ℚ) / 30
  let w := if w < 1 then 1 else w
  sqrtFn w

/-- The doubling condition of learn.py line 49: the consultant is the
lead's responsible, or is the responsible of one of the lead's missions. -/
def lead_doubled (c : ConsultantInfo) (lead : LeadInfo) : Bool :=
  lead.responsible_id == some c.id ||
    lead.mission_responsible_ids.contains (some c.id)

/-- The weighted charge of one lead (learn.py lines 48-50): charge divided
by the decay weight, doubled when the consultant managed the lead or one of
its missions. -/
def weighted_charge (sqrtFn : ℚ → ℚ) (today : ℤ) (c : ConsultantInfo)
    (r : LeadCharge) : ℚ :=
  let wc := r.charge / lead_weight sqrtFn today r.max_working_date
  if lead_doubled c r.lead then wc * 2 else wc

/-- The tag loop of learn.py lines 51-52 for one lead row: add the weighted
charge to the feature of every tag of the lead. -/
def apply_lead (sqrtFn : ℚ → ℚ) (today : ℤ) (c : ConsultantInfo)
    (features : String → ℚ) (r : LeadCharge) : String → ℚ :=
  r.lead.tags.foldl
    (fun f tag => Function.update f tag (f tag + weighted_charge sqrtFn today c r))
    features

/-- `consultant_cumulated_experience` (learn.py lines 37-63).  The features
dictionary is modelled as a total function defaulting to 0 (matching
`features.get(name, 0)`); `rows` are the per-lead aggregated timesheet rows
of the query; `experience` is the (min, max) working-date aggregate over the
consultant's production timesheets, `none` when there is none. -/
def consultant_cumulated_experience (sqrtFn : ℚ → ℚ) (today : ℤ)
    (c : ConsultantInfo) (rows : List LeadCharge)
    (experience : Option (ℤ × ℤ)) : String → ℚ :=
  let features : String → ℚ := fun _ => 0
  let features := rows.foldl (apply_lead sqrtFn today c) features
  let features := Function.update features "Profil" c.profil_level
  let features := Function.update features c.company_name 1
  let features := Function.update features c.manager_trigramme 1
  match experience with
  | some mm => Function.update features "experience" ((mm.2 - mm.1 : ℤ) : ℚ)
  | none => Function.update features "experience" 0

/-- Weighted charge as the claim words it: the lead's total charge divided
by `sqrt(max(1, (today - last working date).days / 30))`, multiplied by 2
exactly when the consultant is the lead's responsible or is responsible for
one of its missions. -/
def specWeightedCharge (sqrtFn : ℚ → ℚ) (today : ℤ) (c : ConsultantInfo)
    (r : LeadCharge) : ℚ :=
  (if r.lead.responsible_id = some c.id ∨
      some c.id ∈ r.lead.mission_responsible_ids then 2 else 1) *
    (r.charge / sqrtFn (max 1 (((today - r.max_working_date : ℤ) : ℚ) / 30)))

/-- Result of `predict_similar` (learn.py lines 82-105): either a plain
Python list (the empty-result paths return the literal `[]`) or a queryset
of consultant primary keys. -/
inductive PyQueryResult where
  | pylist : PyQueryResult
  | queryset : List ℕ → PyQueryResult
  deriving Repr, DecidableEq

/-- `predict_similar` (learn.py lines 82-105).  `model_available` is whether
`compute_consultant_similarity` returned a model; `consultants_ids` the
cached id list; `neighbor_indices` the row of indices returned by
`kneighbors` (its `.any()` is true when some index is nonzero); `db_pks`
the primary keys present in the Consultant table.  An out-of-range index
raises `IndexError`, caught, leaving the plain empty list. -/
def predict_similar (model_available : Bool) (consultants_ids : List ℕ)
    (neighbor_indices : List ℕ) (db_pks : List ℕ) : PyQueryResult :=
  if model_available = false then PyQueryResult.pylist
  else if neighbor_indices.any (fun i => i != 0) then
    if neighbor_indices.all (fun i => decide (i < consultants_ids.length)) then
      let similar_ids := neighbor_indices.map (fun i => consultants_ids.getD i 0)
      PyQueryResult.queryset (db_pks.filter (fun pk => similar_ids.contains pk))
    else PyQueryResult.pylist
  else PyQueryResult.pylist

/-- `predict_similar_consultant` (learn.py lines 76-79): runs the
prediction, then `.exclude(pk=consultant.id)`.  When `predict_similar`
returns a plain list, `.exclude` does not exist on it and the call raises
`AttributeError` (modelled as `Except.error`); on a queryset it filters the
consultant's own primary key out. -/
def predict_similar_consultant (model_available : Bool)
    (consultants_ids : List ℕ) (neighbor_indices : List ℕ) (db_pks : List ℕ)
    (consultant_id : ℕ) : Except Unit (List ℕ) :=
  match predict_similar model_available consultants_ids neighbor_indices db_pks with
  | PyQueryResult.pylist => Except.error ()
  | PyQueryResult.queryset pks =>
      Except.ok (pks.filter (fun pk => pk != consultant_id))

/-! ### Concrete inputs used by witnesses and counterexamples -/

/-- A draft bill: one detail of amount 3 (with VAT 4), expenses 1
(2 with taxes). -/
def draftBill : ClientBill :=
  { state := "0_DRAFT"
    amount := none
    amount_with_vat := none
    vat := 20
    billdetail_set := [{ amount := some 3, amount_with_vat := some 4 }]
    expensesTotal := 1
    expensesTotalWithTaxes := 2 }

/-- A sent bill with amount set but no amount with VAT. -/
def sentBillNoVat : ClientBill :=
  { state := "1_SENT"
    amount := some 5
    amount_with_vat := none
    vat := 20
    billdetail_set := []
    expensesTotal := 0
    expensesTotalWithTaxes := 0 }

/-- A paid bill, amount and amount with VAT both set, with a detail line. -/
def paidBill : ClientBill :=
  { state := "2_PAID"
    amount := some 8
    amount_with_vat := some 9
    vat := 10
    billdetail_set := [{ amount := some 2, amount_with_vat := some 3 }]
    expensesTotal := 4
    expensesTotalWithTaxes := 5 }

/-- A consultant used in the `consultant_cumulated_experience`
counterexample. -/
def cexConsultant : ConsultantInfo :=
  { id := 1, profil_level := 3, company_name := "NewArch",
    manager_trigramme := "ABC" }

/-- A lead row tagged with the reserved feature name `Profil`. -/
def cexLeadCharge : LeadCharge :=
  { lead := { responsible_id := none, mission_responsible_ids := [],
              tags := ["Profil"] }
    charge := 30
    max_working_date := 0 }

/-- A consultant and lead row for the `consultant_cumulated_experience`
witness: tag `python`, managed lead, last worked 120 days ago. -/
def witConsultant : ConsultantInfo :=
  { id := 2, profil_level := 4, company_name := "NewArch",
    manager_trigramme := "XYZ" }

/-- Lead row for the witness: charge 10, tag `python`, the consultant is
the lead's responsible. -/
def witLeadCharge : LeadCharge :=
  { lead := { responsible_id := some 2, mission_responsible_ids := [none],
              tags := ["python"] }
    charge := 10
    max_working_date := 0 }

end Pydici

/-! ## Theorems -/

namespace Pydici

/-- The loop `amount += d.amount if d.amount` equals, from any starting
accumulator, the start plus the sum of the amounts with `None` as 0. -/
theorem foldl_addIfTruthy {α : Type} (f : α → Option ℚ) (l : List α) (a : ℚ) :
    l.foldl (fun acc d => addIfTruthy acc (f d)) a
      = a + (l.map (fun d => (f d).getD 0)).sum := by
  induction l generalizing a with
  | nil => simp
  | cons x xs ih =>
    simp only [List.foldl_cons, List.map_cons, List.sum_cons, ih]
    cases h : f x with
    | none => simp [addIfTruthy, h]
    | some q =>
      by_cases hq : q = 0
      · simp [addIfTruthy, h, hq]
      · simp only [addIfTruthy, h, if_pos hq, Option.getD_some]
        ring

/-- The draft phase written with the spec-side sums. -/
theorem compute_bill_draft_phase_eq (bill : ClientBill)
    (hstate : bill.state = "0_DRAFT" ∨ bill.state = "0_PROPOSED") :
    compute_bill_draft_phase bill =
      (let b1 := if specDetailAmountSum bill ≠ 0 then
          { bill with amount := some (specDetailAmountSum bill) } else bill
       if specDetailVatSum bill ≠ 0 then
          { b1 with amount_with_vat := some (specDetailVatSum bill) } else b1) := by
  unfold compute_bill_draft_phase specDetailAmountSum specDetailVatSum
  rw [if_pos hstate]
  simp only [foldl_addIfTruthy, zero_add]

/-- The draft phase is the identity outside the draft states. -/
theorem compute_bill_draft_phase_frame (bill : ClientBill)
    (hstate : ¬(bill.state = "0_DRAFT" ∨ bill.state = "0_PROPOSED")) :
    compute_bill_draft_phase bill = bill := by
  unfold compute_bill_draft_phase
  rw [if_neg hstate]

/-- The VAT phase never touches the amount. -/
theorem compute_bill_vat_phase_amount (bill : ClientBill) :
    (compute_bill_vat_phase bill).amount = bill.amount := by
  unfold compute_bill_vat_phase
  split
  · split <;> rfl
  · rfl

/-- The VAT phase is the identity when the amount with VAT is truthy. -/
theorem compute_bill_vat_phase_truthy (bill : ClientBill)
    (h : pyTruthy bill.amount_with_vat = true) :
    compute_bill_vat_phase bill = bill := by
  unfold compute_bill_vat_phase
  simp [h]

/-- The draft phase never changes the VAT rate. -/
theorem compute_bill_draft_phase_vat (bill : ClientBill) :
    (compute_bill_draft_phase bill).vat = bill.vat := by
  unfold compute_bill_draft_phase
  split
  · dsimp only
    split
    · split <;> rfl
    · split <;> rfl
  · rfl

/-- C1, counterexample: the bill `sentBill` (state `1_SENT`, amount 5, one
detail of amount 3, no expenses) keeps amount 5 after `compute_bill`, which
differs from the sum of its detail amounts plus expenses (3): the claimed
invariant does not hold for every client bill. -/
theorem compute_bill_amount_claim_cex :
    ¬ ((compute_bill sentBill).amount = some (specDetailAmountSum sentBill)) := by
  have h1 : compute_bill sentBill = sentBill := by
    unfold compute_bill
    rw [compute_bill_draft_phase_frame sentBill (by decide),
      compute_bill_vat_phase_truthy sentBill
        (by norm_num [sentBill, pyTruthy, bne_iff_ne])]
  rw [h1]
  norm_num [sentBill, specDetailAmountSum]

/-- C1, amended: for every bill in state `0_DRAFT` or `0_PROPOSED`, after
`compute_bill` runs, whenever the sum of the detail amounts plus the
expenses total is nonzero the bill's amount equals that sum, and whenever
the sum of the detail amounts with VAT plus the expenses with taxes is
nonzero the bill's amount with VAT equals that sum. -/
theorem compute_bill_draft_amount_eq_sums (bill : ClientBill)
    (hstate : bill.state = "0_DRAFT" ∨ bill.state = "0_PROPOSED") :
    (specDetailAmountSum bill ≠ 0 →
      (compute_bill bill).amount = some (specDetailAmountSum bill)) ∧
    (specDetailVatSum bill ≠ 0 →
      (compute_bill bill).amount_with_vat = some (specDetailVatSum bill)) := by
  constructor
  · intro hS
    unfold compute_bill
    rw [compute_bill_vat_phase_amount, compute_bill_draft_phase_eq bill hstate]
    by_cases hT : specDetailVatSum bill = 0 <;> simp [hS, hT]
  · intro hT
    have hmid : (compute_bill_draft_phase bill).amount_with_vat =
        some (specDetailVatSum bill) := by
      rw [compute_bill_draft_phase_eq bill hstate]
      simp [hT]
    unfold compute_bill
    rw [compute_bill_vat_phase_truthy]
    · exact hmid
    · rw [hmid]
      simpa [pyTruthy] using hT

/-- C1, witness: on the concrete draft bill, both sums are nonzero and the
amended claim yields amount 4 and amount with VAT 6. -/
theorem compute_bill_draft_amount_eq_sums_witness :
    (compute_bill draftBill).amount = some (specDetailAmountSum draftBill) ∧
    (compute_bill draftBill).amount_with_vat = some (specDetailVatSum draftBill) :=
  ⟨(compute_bill_draft_amount_eq_sums draftBill (Or.inl rfl)).1
      (by norm_num [specDetailAmountSum, draftBill]),
   (compute_bill_draft_amount_eq_sums draftBill (Or.inl rfl)).2
      (by norm_num [specDetailVatSum, draftBill])⟩

/-- C2: after the detail summation, a falsy amount with VAT together with a
truthy amount makes `compute_bill` set the amount with VAT to
amount × (1 + vat / 100); a truthy amount with VAT is left untouched by the
VAT computation. -/
theorem compute_bill_vat_rule (bill : ClientBill) :
    (pyTruthy (compute_bill_draft_phase bill).amount_with_vat = false →
      pyTruthy (compute_bill_draft_phase bill).amount = true →
      (compute_bill bill).amount_with_vat =
        some ((compute_bill_draft_phase bill).amount.getD 0 * (1 + bill.vat / 100))) ∧
    (pyTruthy (compute_bill_draft_phase bill).amount_with_vat = true →
      (compute_bill bill).amount_with_vat =
        (compute_bill_draft_phase bill).amount_with_vat) := by
  constructor
  · intro hfal htru
    show (compute_bill_vat_phase (compute_bill_draft_phase bill)).amount_with_vat = _
    rw [← compute_bill_draft_phase_vat bill]
    unfold compute_bill_vat_phase
    simp [hfal, htru]
  · intro htru
    unfold compute_bill
    rw [compute_bill_vat_phase_truthy _ htru]

/-- C2, witness: the sent bill with amount 5 and no amount with VAT gets
amount with VAT 5 × (1 + 20 / 100). -/
theorem compute_bill_vat_rule_witness :
    (compute_bill sentBillNoVat).amount_with_vat =
      some ((compute_bill_draft_phase sentBillNoVat).amount.getD 0 *
        (1 + sentBillNoVat.vat / 100)) :=
  (compute_bill_vat_rule sentBillNoVat).1 (by decide) (by decide)

/-- C8: a bill outside the `0_DRAFT`/`0_PROPOSED` states with a truthy
amount with VAT passes through `compute_bill` unchanged; the detail/expense
summation phase is the identity outside those states; and inside them a
computed sum of zero is never assigned, for the amount as for the amount
with VAT. -/
theorem compute_bill_frame (bill : ClientBill) :
    (¬(bill.state = "0_DRAFT" ∨ bill.state = "0_PROPOSED") →
      (pyTruthy bill.amount_with_vat = true → compute_bill bill = bill) ∧
      compute_bill_draft_phase bill = bill) ∧
    ((bill.state = "0_DRAFT" ∨ bill.state = "0_PROPOSED") →
      (specDetailAmountSum bill = 0 →
        (compute_bill_draft_phase bill).amount = bill.amount) ∧
      (specDetailVatSum bill = 0 →
        (compute_bill_draft_phase bill).amount_with_vat = bill.amount_with_vat)) := by
  constructor
  · intro hstate
    refine ⟨fun htru => ?_, compute_bill_draft_phase_frame bill hstate⟩
    unfold compute_bill
    rw [compute_bill_draft_phase_frame bill hstate,
      compute_bill_vat_phase_truthy bill htru]
  · intro hstate
    rw [compute_bill_draft_phase_eq bill hstate]
    constructor
    · intro hS
      simp only [hS, ne_eq, not_true_eq_false, if_false]
      split <;> rfl
    · intro hT
      simp only [hT, ne_eq, not_true_eq_false, if_false]
      split <;> rfl

/-- C8, witness: the paid bill with truthy amount with VAT is returned
unchanged by `compute_bill`. -/
theorem compute_bill_frame_witness :
    compute_bill paidBill = paidBill ∧
    compute_bill_draft_phase paidBill = paidBill :=
  ⟨((compute_bill_frame paidBill).1 (by decide)).1 (by decide),
   ((compute_bill_frame paidBill).1 (by decide)).2⟩

/-- Value at one tag after the tag loop of one lead: the previous value
plus the weighted charge once per occurrence of the tag. -/
theorem tag_fold_apply (wc : ℚ) (tags : List String) (f : String → ℚ)
    (t : String) :
    (tags.foldl (fun g tag => Function.update g tag (g tag + wc)) f) t
      = f t + (tags.count t : ℚ) * wc := by
  induction tags generalizing f with
  | nil => simp
  | cons a as ih =>
    simp only [List.foldl_cons, ih]
    by_cases h : a = t
    · subst h
      rw [Function.update_same]
      simp [List.count_cons]
      ring
    · rw [Function.update_noteq (Ne.symm h)]
      simp [List.count_cons, h]

/-- `apply_lead` at one tag. -/
theorem apply_lead_apply (sqrtFn : ℚ → ℚ) (today : ℤ) (c : ConsultantInfo)
    (features : String → ℚ) (r : LeadCharge) (t : String) :
    apply_lead sqrtFn today c features r t
      = features t + (r.lead.tags.count t : ℚ) * weighted_charge sqrtFn today c r := by
  unfold apply_lead
  exact tag_fold_apply _ _ _ _

/-- Value at one tag after the whole lead loop. -/
theorem rows_fold_apply (sqrtFn : ℚ → ℚ) (today : ℤ) (c : ConsultantInfo)
    (rows : List LeadCharge) (f : String → ℚ) (t : String) :
    (rows.foldl (apply_lead sqrtFn today c) f) t
      = f t + (rows.map (fun r =>
          (r.lead.tags.count t : ℚ) * weighted_charge sqrtFn today c r)).sum := by
  induction rows generalizing f with
  | nil => simp
  | cons r rs ih =>
    simp only [List.foldl_cons, List.map_cons, List.sum_cons, ih,
      apply_lead_apply]
    ring

/-- The code's weighted charge coincides with the claim's formula:
charge divided by `sqrt(max 1 ((today - last working date) / 30))`,
doubled exactly when the consultant is the lead's responsible or the
responsible of one of its missions. -/
theorem weighted_charge_eq_spec (sqrtFn : ℚ → ℚ) (today : ℤ)
    (c : ConsultantInfo) (r : LeadCharge) :
    weighted_charge sqrtFn today c r = specWeightedCharge sqrtFn today c r := by
  unfold weighted_charge specWeightedCharge lead_weight
  have hmax : (if ((today - r.max_working_date : ℤ) : ℚ) / 30 < 1 then (1 : ℚ)
      else ((today - r.max_working_date : ℤ) : ℚ) / 30)
      = max 1 (((today - r.max_working_date : ℤ) : ℚ) / 30) := by
    rcases le_or_lt 1 (((today - r.max_working_date : ℤ) : ℚ) / 30) with h | h
    · rw [if_neg (not_lt.mpr h), max_eq_right h]
    · rw [if_pos h, max_eq_left h.le]
  have hcond : lead_doubled c r.lead = true ↔
      (r.lead.responsible_id = some c.id ∨
        some c.id ∈ r.lead.mission_responsible_ids) := by
    simp [lead_doubled, List.elem_iff]
  dsimp only
  rw [hmax]
  by_cases hd : r.lead.responsible_id = some c.id ∨
      some c.id ∈ r.lead.mission_responsible_ids
  · rw [if_pos (hcond.mpr hd), if_pos hd]
    ring
  · rw [if_neg (fun hb => hd (hcond.mp hb)), if_neg hd]
    ring

/-- C4, counterexample: a lead tagged with the reserved feature name
`Profil` (charge 30, identity taken as the square root) ends with feature
value 3 (the consultant's profile level), not the weighted charge 30 the
claim prescribes for every tag of the lead. -/
theorem consultant_cumulated_experience_claim_cex :
    ¬ (consultant_cumulated_experience (fun q => q) 0 cexConsultant
          [cexLeadCharge] none "Profil"
        = ([cexLeadCharge].map (fun r => if "Profil" ∈ r.lead.tags
            then specWeightedCharge (fun q => q) 0 cexConsultant r else 0)).sum) := by
  have hl : consultant_cumulated_experience (fun q => q) 0 cexConsultant
      [cexLeadCharge] none "Profil" = 3 := by
    unfold consultant_cumulated_experience
    dsimp only
    rw [Function.update_noteq (by decide), Function.update_noteq (by decide),
      Function.update_noteq (by decide), Function.update_same]
    rfl
  have hr : ([cexLeadCharge].map (fun r => if "Profil" ∈ r.lead.tags
      then specWeightedCharge (fun q => q) 0 cexConsultant r else 0)).sum = 30 := by
    norm_num [cexLeadCharge, specWeightedCharge, cexConsultant]
    decide
  rw [hl, hr]
  norm_num

/-- C4, amended: for every tag that is none of the reserved feature keys
(`Profil`, the consultant's company name, the manager's trigramme,
`experience` — all of which the function overwrites after the loop), the
returned feature is the sum, over the production leads carrying the tag, of
the lead's total charge divided by `sqrt(max 1 ((today - last working
date).days / 30))`, doubled exactly when the consultant is the lead's
responsible or responsible for one of its missions. -/
theorem consultant_cumulated_experience_histogram (sqrtFn : ℚ → ℚ)
    (today : ℤ) (c : ConsultantInfo) (rows : List LeadCharge)
    (experience : Option (ℤ × ℤ)) (t : String)
    (h1 : t ≠ "Profil") (h2 : t ≠ c.company_name)
    (h3 : t ≠ c.manager_trigramme) (h4 : t ≠ "experience")
    (hnd : ∀ r ∈ rows, r.lead.tags.Nodup) :
    consultant_cumulated_experience sqrtFn today c rows experience t
      = (rows.map (fun r => if t ∈ r.lead.tags
          then specWeightedCharge sqrtFn today c r else 0)).sum := by
  unfold consultant_cumulated_experience
  have key : ∀ f : String → ℚ, f = rows.foldl (apply_lead sqrtFn today c)
      (fun _ => 0) → f t = (rows.map (fun r => if t ∈ r.lead.tags
        then specWeightedCharge sqrtFn today c r else 0)).sum := by
    intro f hf
    rw [hf, rows_fold_apply]
    have : (rows.map (fun r =>
        (r.lead.tags.count t : ℚ) * weighted_charge sqrtFn today c r))
        = (rows.map (fun r => if t ∈ r.lead.tags
            then specWeightedCharge sqrtFn today c r else 0)) := by
      apply List.map_congr_left
      intro r hr
      by_cases hm : t ∈ r.lead.tags
      · rw [if_pos hm, List.count_eq_one_of_mem (hnd r hr) hm,
          weighted_charge_eq_spec]
        push_cast
        ring
      · rw [if_neg hm, List.count_eq_zero_of_not_mem hm]
        push_cast
        ring
    rw [this]
    ring
  cases experience with
  | none =>
    dsimp only
    rw [Function.update_noteq h4, Function.update_noteq h3,
      Function.update_noteq h2, Function.update_noteq h1]
    exact key _ rfl
  | some mm =>
    dsimp only
    rw [Function.update_noteq h4, Function.update_noteq h3,
      Function.update_noteq h2, Function.update_noteq h1]
    exact key _ rfl

/-- C4, witness: a managed lead of charge 10 last worked 120 days ago,
tagged `python`: the feature of `python` is the doubled decayed charge. -/
theorem consultant_cumulated_experience_histogram_witness :
    consultant_cumulated_experience (fun q => q) 120 witConsultant
        [witLeadCharge] none "python"
      = ([witLeadCharge].map (fun r => if "python" ∈ r.lead.tags
          then specWeightedCharge (fun q => q) 120 witConsultant r else 0)).sum :=
  consultant_cumulated_experience_histogram (fun q => q) 120 witConsultant
    [witLeadCharge] none "python" (by decide) (by decide) (by decide)
    (by decide) (by decide)

/-- C9: whenever `predict_similar_consultant` returns a result set, the
queried consultant's own primary key is not in it. -/
theorem predict_similar_consultant_excludes_self (ma : Bool)
    (cids nis pks : List ℕ) (cid : ℕ) (res : List ℕ)
    (h : predict_similar_consultant ma cids nis pks cid = Except.ok res) :
    cid ∉ res := by
  unfold predict_similar_consultant at h
  cases hps : predict_similar ma cids nis pks with
  | pylist => rw [hps] at h; exact absurd h (by simp)
  | queryset l =>
    rw [hps] at h
    simp only [Except.ok.injEq] at h
    subst h
    intro hmem
    have hf := (List.mem_filter.mp hmem).2
    simp at hf

/-- C9, witness: with a model, neighbor index 1 over cached ids [10, 11]
and consultant 10, the result is [11] and 10 is excluded. -/
theorem predict_similar_consultant_excludes_self_witness :
    predict_similar_consultant true [10, 11] [1] [10, 11] 10
        = Except.ok [11] ∧
      (10 : ℕ) ∉ [11] :=
  ⟨by rfl,
   predict_similar_consultant_excludes_self true [10, 11] [1] [10, 11] 10 [11]
     (by rfl)⟩

/-- The bucketing loop, from any accumulator: each nature list is the
accumulator followed by the weighted charges of the rows of that nature,
in order. -/
theorem pdc_bucket_go (proj : String) (ss : List StaffingRow)
    (acc : List ℚ × List ℚ × List ℚ) :
    ss.foldl (pdc_bucket_step proj) acc =
      (acc.1 ++ (ss.filter (fun s => decide (s.nature = "PROD"))).map
          (staffingWeight proj),
       acc.2.1 ++ (ss.filter (fun s => decide (s.nature = "NONPROD"))).map
          (staffingWeight proj),
       acc.2.2 ++ (ss.filter (fun s => decide (s.nature = "HOLIDAYS"))).map
          (staffingWeight proj)) := by
  induction ss generalizing acc with
  | nil => simp
  | cons s ss ih =>
    rw [List.foldl_cons, ih]
    by_cases h1 : s.nature = "PROD"
    · simp [pdc_bucket_step, staffingWeight, List.filter_cons, h1]
    · by_cases h2 : s.nature = "NONPROD"
      · simp [pdc_bucket_step, staffingWeight, List.filter_cons, h1, h2]
      · by_cases h3 : s.nature = "HOLIDAYS"
        · simp [pdc_bucket_step, staffingWeight, List.filter_cons, h1, h2, h3]
        · simp [pdc_bucket_step, staffingWeight, List.filter_cons, h1, h2, h3]

/-- The bucket lists are exactly the per-nature filtered, weighted rows. -/
theorem pdc_bucket_eq (proj : String) (ss : List StaffingRow) :
    pdc_bucket proj ss =
      ((ss.filter (fun s => decide (s.nature = "PROD"))).map (staffingWeight proj),
       (ss.filter (fun s => decide (s.nature = "NONPROD"))).map (staffingWeight proj),
       (ss.filter (fun s => decide (s.nature = "HOLIDAYS"))).map (staffingWeight proj)) := by
  unfold pdc_bucket
  rw [pdc_bucket_go]
  simp

/-- The totals loop, from any accumulator. -/
theorem pdc_month_total_go (proj : String) (wd : ℚ) (m : ℕ)
    (cs : List PdcConsultant) (t : PdcTotals) :
    cs.foldl (pdc_accumulate proj wd m) t =
      { prod := t.prod + specNatureTotal proj cs m "PROD"
        unprod := t.unprod + specNatureTotal proj cs m "NONPROD"
        holidays := t.holidays + specNatureTotal proj cs m "HOLIDAYS"
        available := t.available + specAvailableTotal proj wd cs m
        total := t.total + (cs.length : ℚ) * wd } := by
  induction cs generalizing t with
  | nil => simp [specNatureTotal, specAvailableTotal]
  | cons c cs ih =>
    rw [List.foldl_cons, ih]
    simp only [pdc_accumulate, pdc_bucket_eq]
    simp only [specNatureTotal, specAvailableTotal, List.map_cons,
      List.sum_cons, List.length_cons]
    simp only [PdcTotals.mk.injEq]
    refine ⟨by ring, by ring, by ring, by ring, by push_cast; ring⟩

/-- The monthly totals equal the spec-side sums. -/
theorem pdc_month_total_eq (proj : String) (wd : ℚ)
    (cs : List PdcConsultant) (m : ℕ) :
    pdc_month_total proj wd cs m =
      { prod := specNatureTotal proj cs m "PROD"
        unprod := specNatureTotal proj cs m "NONPROD"
        holidays := specNatureTotal proj cs m "HOLIDAYS"
        available := specAvailableTotal proj wd cs m
        total := (cs.length : ℚ) * wd } := by
  unfold pdc_month_total
  rw [pdc_month_total_go]
  simp

/-- C3: each displayed month's four indicator rates are percentages of the
bucketed, probability-weighted charge totals: writing `H` for the holidays
total and `nd = people_count × working days`, the rate list is
`[100·P/(nd − H), 100·U/(nd − H), 100·H/nd, 100·A/(nd − H)]`, where `P`,
`U` are the prod/unprod totals and `A` the availability total, all
obtained by bucketing each kept staffing charge by its mission nature
weighted by probability/100 (raw under the `full` projection). -/
theorem pdc_review_rates_spec (proj : String) (people_count : ℕ) (wd : ℚ)
    (cs : List PdcConsultant) (m : ℕ) :
    pdc_month_rate proj people_count wd cs m =
      [100 * specNatureTotal proj cs m "PROD" /
          ((people_count : ℚ) * wd - specNatureTotal proj cs m "HOLIDAYS"),
       100 * specNatureTotal proj cs m "NONPROD" /
          ((people_count : ℚ) * wd - specNatureTotal proj cs m "HOLIDAYS"),
       100 * specNatureTotal proj cs m "HOLIDAYS" / ((people_count : ℚ) * wd),
       100 * specAvailableTotal proj wd cs m /
          ((people_count : ℚ) * wd - specNatureTotal proj cs m "HOLIDAYS")] := by
  unfold pdc_month_rate
  rw [pdc_month_total_eq]

/-- C10: `pdc_review` displays 4 months by default; a non-integer `n_month`
parameter (a `ValueError`, caught) keeps the default; an integer above 12
is clamped to 12; and the displayed month list always has `n_month`
entries. -/
theorem pdc_n_month_clamp :
    pdc_n_month none = 4 ∧
    (∀ y m : ℤ, (pdc_months y m (pdc_n_month none)).length = 4) ∧
    (∀ e : Unit, pdc_n_month (some (Except.error e)) = 4) ∧
    (∀ y m : ℤ, ∀ e : Unit,
      (pdc_months y m (pdc_n_month (some (Except.error e)))).length = 4) ∧
    (∀ k : ℤ, 12 < k → pdc_n_month (some (Except.ok k)) = 12) ∧
    (∀ y m k : ℤ, 12 < k →
      (pdc_months y m (pdc_n_month (some (Except.ok k)))).length = 12) := by
  refine ⟨rfl, ?_, ?_, ?_, ?_, ?_⟩
  · intro y m
    rw [pdc_months, List.length_map, List.length_range]
    rfl
  · intro e
    rfl
  · intro y m e
    rw [pdc_months, List.length_map, List.length_range]
    rfl
  · intro k hk
    exact if_pos hk
  · intro y m k hk
    rw [pdc_months, List.length_map, List.length_range]
    show (pdc_n_month (some (Except.ok k))).toNat = 12
    rw [show pdc_n_month (some (Except.ok k)) = 12 from if_pos hk]
    rfl

/-- C10, witness: `n_month = 13` yields 12 displayed months. -/
theorem pdc_n_month_clamp_witness :
    pdc_n_month (some (Except.ok 13)) = 12 ∧
    (pdc_months 2026 10 (pdc_n_month (some (Except.ok 13)))).length = 12 :=
  ⟨pdc_n_month_clamp.2.2.2.2.1 13 (by decide),
   pdc_n_month_clamp.2.2.2.2.2 2026 10 13 (by decide)⟩

/-- C5: each consultant-month cell's status is one of the six, and it is
chosen by the claimed rule over the cell's computed forecast, production
rate and daily rate and their objectives. -/
theorem prod_report_status_rule (dro pro : Option ℚ)
    (month_days holidaysDays prodDays nonprodDays : ℚ) (turnover : ℤ)
    (r : ProdCell)
    (hr : r = prod_report_cell dro pro month_days holidaysDays prodDays
      nonprodDays turnover) :
    r.status ∈ prodStatusNames ∧
    (turnover ≥ r.forecast → r.prod_rate < r.prod_rate_obj →
      r.status = "ok_but_prod_date") ∧
    (turnover ≥ r.forecast → ¬r.prod_rate < r.prod_rate_obj →
      r.daily_rate < r.daily_rate_obj → r.status = "ok_but_daily_rate") ∧
    (turnover ≥ r.forecast → ¬r.prod_rate < r.prod_rate_obj →
      ¬r.daily_rate < r.daily_rate_obj → r.status = "ok") ∧
    (turnover < r.forecast → r.prod_rate ≥ r.prod_rate_obj →
      r.status = "ko_but_prod_date") ∧
    (turnover < r.forecast → ¬r.prod_rate ≥ r.prod_rate_obj →
      r.daily_rate ≥ r.daily_rate_obj → r.status = "ko_but_daily_rate") ∧
    (turnover < r.forecast → ¬r.prod_rate ≥ r.prod_rate_obj →
      ¬r.daily_rate ≥ r.daily_rate_obj → r.status = "ko") := by
  subst hr
  unfold prod_report_cell
  dsimp only
  refine ⟨?_, ?_, ?_, ?_, ?_, ?_, ?_⟩
  · split_ifs <;> simp [prodStatusNames]
  · intro h1 h2
    rw [if_pos h1, if_pos h2]
  · intro h1 h2 h3
    rw [if_pos h1, if_neg h2, if_pos h3]
  · intro h1 h2 h3
    rw [if_pos h1, if_neg h2, if_neg h3]
  · intro h1 h2
    rw [if_neg (not_le.mpr h1), if_pos h2]
  · intro h1 h2 h3
    rw [if_neg (not_le.mpr h1), if_neg h2, if_pos h3]
  · intro h1 h2 h3
    rw [if_neg (not_le.mpr h1), if_neg h2, if_neg h3]

/-- C5, witness: with no rate objectives every target is zeroed; turnover 5
meets the zero forecast, rates meet the zero objectives, status `ok`. -/
theorem prod_report_status_rule_witness :
    (prod_report_cell none none 20 0 0 0 5).status = "ok" :=
  (prod_report_status_rule none none 20 0 0 0 5 _ rfl).2.2.2.1
    (by norm_num [prod_report_cell])
    (by norm_num [prod_report_cell, prod_rate_calc, pyDiv])
    (by norm_num [prod_report_cell])

/-- C6: with no production and no non-production days the production rate
is 0; the division raises `ZeroDivisionError` exactly when both day counts
are zero (given day counts are non-negative); and whenever it raises, the
caught branch makes the rate 0 — the computation is total. -/
theorem prod_rate_zero_days_safe (prodDays nonprodDays : ℚ)
    (hp : 0 ≤ prodDays) (hn : 0 ≤ nonprodDays) :
    (prodDays = 0 ∧ nonprodDays = 0 →
      prod_rate_calc prodDays nonprodDays = 0) ∧
    (pyDiv prodDays (prodDays + nonprodDays) = Except.error () ↔
      prodDays = 0 ∧ nonprodDays = 0) ∧
    (∀ e : Unit, pyDiv prodDays (prodDays + nonprodDays) = Except.error e →
      prod_rate_calc prodDays nonprodDays = 0) := by
  refine ⟨?_, ⟨?_, ?_⟩, ?_⟩
  · rintro ⟨h0, h1⟩
    simp [prod_rate_calc, pyDiv, h0, h1]
  · intro h
    unfold pyDiv at h
    split at h
    · constructor <;> linarith [le_antisymm (by linarith) (add_nonneg hp hn)]
    · exact absurd h (by simp)
  · rintro ⟨h0, h1⟩
    simp [pyDiv, h0, h1]
  · intro e he
    unfold prod_rate_calc
    rw [he]

/-- C6, witness: zero days of both natures give production rate 0. -/
theorem prod_rate_zero_days_safe_witness :
    prod_rate_calc 0 0 = 0 :=
  (prod_rate_zero_days_safe 0 0 le_rfl le_rfl).1 ⟨rfl, rfl⟩

/-- C7: each of the three CSV timesheet exports uses a `csv.writer` with
the semicolon as field delimiter and a body that begins with the UTF-8
byte-order mark. -/
theorem csv_exports_bom_semicolon (rows : List (List String)) :
    ((consultant_csv_timesheet rows).1.body.take 3 = bomUtf8 ∧
      (consultant_csv_timesheet rows).2.delimiter = ';') ∧
    ((all_csv_timesheet rows).1.body.take 3 = bomUtf8 ∧
      (all_csv_timesheet rows).2.delimiter = ';') ∧
    ((detailed_csv_timesheet rows).1.body.take 3 = bomUtf8 ∧
      (detailed_csv_timesheet rows).2.delimiter = ';') := by
  have key : (csvTimesheetResponse rows).1.body.take 3 = bomUtf8 := by
    simp [csvTimesheetResponse, bomUtf8]
  exact ⟨⟨key, rfl⟩, ⟨key, rfl⟩, ⟨key, rfl⟩⟩

end Pydici
